import Mathlib

/-!
# Verification of the webhook pipeline of the africa-payment-sdk-node repository

This file shallowly embeds the webhook verification and event-normalization
pipeline of the SDK: the Stripe provider (`src/unnamed/part_000`, class
`StripePaymentProvider`) and the Paydunya provider
(`src/src/sdk/providers/paydunya.ts`, class `PaydunyaPaymentProvider`),
together with the data model of `payment-events.ts` and
`payment-provider.interface.ts`.

Modelling conventions:
* JavaScript values that may be `undefined`/`null` are `Option` values;
  JS string truthiness (`!x`) is `strFalsy`.
* JS numbers are `Option ℚ` (`none` is `NaN`); `Number(...)` coercion of a
  decimal string is `jsNumber`, implemented for the sign / digits / fraction
  fragment of the JS numeric grammar.
* `JSON.stringify` / `JSON.parse` (the builtins the SDK calls on metadata
  values) are `jsonStringify` / `jsonParse` over the `JsValue` AST, with
  integer numerals; the parser is total via a fuel argument.
* Throwing JS code is embedded in `Except JsError`; code that cannot throw is
  a plain function.
* External collaborators (the Stripe SDK's `webhooks.constructEvent`
  signature verifier and Node's `crypto` SHA-512) are opaque function
  parameters: the theorems below are about how the SDK composes them, not
  about the cryptography itself.
-/

/-! ## A model of JSON values and of the `JSON` builtins -/

/-- A JSON value, as produced by `JSON.parse`. Numbers are restricted to the
integer numerals, the fragment the SDK's metadata round-trip exercises. -/
inductive JsValue where
  | null : JsValue
  | bool (b : Bool) : JsValue
  | num (i : Int) : JsValue
  | str (s : String) : JsValue
  | arr (elements : List JsValue) : JsValue
  | obj (members : List (String × JsValue)) : JsValue
deriving Repr

/-- Is `c` a decimal digit? -/
def isDigitCh (c : Char) : Bool := decide ('0' ≤ c) && decide (c ≤ '9')

/-- The numeric value of a digit character. -/
def digitVal (c : Char) : Nat := c.toNat - '0'.toNat

/-- The digit character of `d < 10`. -/
def digitChar (d : Nat) : Char := Char.ofNat ('0'.toNat + d)

/-- Decimal digits of `n`, least significant first. -/
def natDigitsRev (n : Nat) : List Char :=
  if h : n < 10 then [digitChar n]
  else digitChar (n % 10) :: natDigitsRev (n / 10)
termination_by n
decreasing_by exact Nat.div_lt_self (by omega) (by omega)

/-- Decimal digits of `n`, most significant first. -/
def natDigits (n : Nat) : List Char := (natDigitsRev n).reverse

/-- The numeric value of a digit string (most significant first). -/
def digitsVal (ds : List Char) : Nat :=
  ds.foldl (fun a c => 10 * a + digitVal c) 0

/-- Split a leading run of decimal digits off a character list. -/
def grabDigits : List Char → List Char × List Char
  | [] => ([], [])
  | c :: cs =>
    if isDigitCh c then
      let p := grabDigits cs
      (c :: p.1, p.2)
    else ([], c :: cs)

/-- The decimal characters of an integer: optional minus sign, then digits. -/
def intChars (i : Int) : List Char :=
  (if i < 0 then ['-'] else []) ++ natDigits i.natAbs

/-- JavaScript `Number(s)` on the sign / digits / optional-fraction fragment of
the numeric grammar: `""` is `0`, an unparsable string is `NaN` (`none`). -/
def jsNumber (s : String) : Option ℚ :=
  match s.data with
  | [] => some 0
  | cs =>
    let sgn : ℚ × List Char :=
      match cs with
      | '-' :: r => (-1, r)
      | '+' :: r => (1, r)
      | _ => (1, cs)
    let ip := grabDigits sgn.2
    match ip.1, ip.2 with
    | [], '.' :: fr =>
      let fp := grabDigits fr
      if fp.1 = [] ∨ fp.2 ≠ [] then none
      else some (sgn.1 * ((digitsVal fp.1 : ℚ) / (10 ^ fp.1.length)))
    | [], _ => none
    | ds, [] => some (sgn.1 * (digitsVal ds : ℚ))
    | ds, '.' :: fr =>
      let fp := grabDigits fr
      if fp.2 ≠ [] then none
      else some (sgn.1 * ((digitsVal ds : ℚ) + (digitsVal fp.1 : ℚ) / (10 ^ fp.1.length)))
    | _, _ => none

/-- The lowercase hex digit of `d < 16`. -/
def hexDigit (d : Nat) : Char :=
  if d < 10 then Char.ofNat ('0'.toNat + d) else Char.ofNat ('a'.toNat + (d - 10))

/-- The value of a hex digit character, if it is one. -/
def hexDigitVal (c : Char) : Option Nat :=
  if isDigitCh c then some (c.toNat - '0'.toNat)
  else if decide ('a' ≤ c) && decide (c ≤ 'f') then some (c.toNat - 'a'.toNat + 10)
  else if decide ('A' ≤ c) && decide (c ≤ 'F') then some (c.toNat - 'A'.toNat + 10)
  else none

/-- `JSON.stringify` escaping of one string character. -/
def escapeChar (c : Char) : List Char :=
  if c = '"' then ['\\', '"']
  else if c = '\\' then ['\\', '\\']
  else if c = '\n' then ['\\', 'n']
  else if c = '\r' then ['\\', 'r']
  else if c = '\t' then ['\\', 't']
  else if c = Char.ofNat 8 then ['\\', 'b']
  else if c = Char.ofNat 12 then ['\\', 'f']
  else if c.toNat < 32 then
    ['\\', 'u', '0', '0', hexDigit (c.toNat / 16), hexDigit (c.toNat % 16)]
  else [c]

/-- The single-character `JSON.parse` escapes: the letters `n t r b f` name
control characters, and `"` `\` `/` stand for themselves. -/
def simpleUnescape (e : Char) : Option Char :=
  if e = 'n' then some '\n'
  else if e = 't' then some '\t'
  else if e = 'r' then some '\r'
  else if e = 'b' then some (Char.ofNat 8)
  else if e = 'f' then some (Char.ofNat 12)
  else if e = '"' ∨ e = '\\' ∨ e = '/' then some e
  else none

/-- Parse a JSON string body (after the opening quote) up to the closing
quote, undoing escapes; `acc` holds the characters read so far, reversed. -/
def parseStringBody (acc : List Char) : List Char → Option (String × List Char)
  | '"' :: rest => some (String.mk acc.reverse, rest)
  | '\\' :: 'u' :: h1 :: h2 :: h3 :: h4 :: rest =>
    match hexDigitVal h1, hexDigitVal h2, hexDigitVal h3, hexDigitVal h4 with
    | some a, some b, some c, some d =>
      parseStringBody (Char.ofNat (((a * 16 + b) * 16 + c) * 16 + d) :: acc) rest
    | _, _, _, _ => none
  | '\\' :: e :: rest =>
    match simpleUnescape e with
    | some ch => parseStringBody (ch :: acc) rest
    | none => none
  | c :: rest => parseStringBody (c :: acc) rest
  | [] => none

/-- Parse an integer numeral: optional minus sign then a digit run. -/
def parseJsonInt (cs : List Char) : Option (JsValue × List Char) :=
  match cs with
  | '-' :: r =>
    let p := grabDigits r
    if p.1 = [] then none else some (.num (-(digitsVal p.1 : Int)), p.2)
  | _ =>
    let p := grabDigits cs
    if p.1 = [] then none else some (.num (digitsVal p.1 : Int), p.2)

mutual

/-- Parse one JSON value off the front of the input (fuel-bounded). -/
def parseJsonVal : Nat → List Char → Option (JsValue × List Char)
  | 0, _ => none
  | fuel + 1, cs =>
    match cs with
    | 'n' :: 'u' :: 'l' :: 'l' :: rest => some (.null, rest)
    | 't' :: 'r' :: 'u' :: 'e' :: rest => some (.bool true, rest)
    | 'f' :: 'a' :: 'l' :: 's' :: 'e' :: rest => some (.bool false, rest)
    | '"' :: rest =>
      match parseStringBody [] rest with
      | some (s, r1) => some (.str s, r1)
      | none => none
    | '[' :: (']' :: rest) => some (.arr [], rest)
    | '[' :: rest =>
      match parseJsonVal fuel rest with
      | none => none
      | some (v, r1) =>
        match parseJsonArrTail fuel r1 with
        | none => none
        | some (vs, r2) => some (.arr (v :: vs), r2)
    | '{' :: ('}' :: rest) => some (.obj [], rest)
    | '{' :: ('"' :: rest) =>
      match parseStringBody [] rest with
      | none => none
      | some (k, r1) =>
        match r1 with
        | ':' :: r2 =>
          match parseJsonVal fuel r2 with
          | none => none
          | some (v, r3) =>
            match parseJsonObjTail fuel r3 with
            | none => none
            | some (ms, r4) => some (.obj ((k, v) :: ms), r4)
        | _ => none
    | '{' :: _ => none
    | c :: rest =>
      if c = '-' ∨ isDigitCh c then parseJsonInt (c :: rest) else none
    | [] => none

/-- After the first array element: a `,`-separated run of values up to `]`. -/
def parseJsonArrTail : Nat → List Char → Option (List JsValue × List Char)
  | 0, _ => none
  | fuel + 1, cs =>
    match cs with
    | ']' :: rest => some ([], rest)
    | ',' :: rest =>
      match parseJsonVal fuel rest with
      | none => none
      | some (v, r1) =>
        match parseJsonArrTail fuel r1 with
        | none => none
        | some (vs, r2) => some (v :: vs, r2)
    | _ => none

/-- After the first object member: a `,`-separated run of members up to `}`. -/
def parseJsonObjTail : Nat → List Char → Option (List (String × JsValue) × List Char)
  | 0, _ => none
  | fuel + 1, cs =>
    match cs with
    | '}' :: rest => some ([], rest)
    | ',' :: ('"' :: rest) =>
      match parseStringBody [] rest with
      | none => none
      | some (k, r1) =>
        match r1 with
        | ':' :: r2 =>
          match parseJsonVal fuel r2 with
          | none => none
          | some (v, r3) =>
            match parseJsonObjTail fuel r3 with
            | none => none
            | some (ms, r4) => some ((k, v) :: ms, r4)
        | _ => none
    | _ => none

end

/-- `JSON.parse`: a full-input parse of one value, `none` on any error. -/
def jsonParse (s : String) : Option JsValue :=
  match parseJsonVal (s.data.length + 1) s.data with
  | some (v, []) => some v
  | _ => none

/-- A JSON string literal (quotes and escapes) for `s`. -/
def stringChars (s : String) : List Char :=
  '"' :: (s.data.flatMap escapeChar ++ ['"'])

mutual

/-- `JSON.stringify`, producing characters. -/
def jsonStringifyL : JsValue → List Char
  | .null => "null".data
  | .bool b => if b then "true".data else "false".data
  | .num i => intChars i
  | .str s => stringChars s
  | .arr [] => ['[', ']']
  | .arr (v :: vs) => '[' :: (jsonStringifyL v ++ stringifyArrTail vs)
  | .obj [] => ['{', '}']
  | .obj (m :: ms) =>
    '{' :: (stringChars m.1 ++ ':' :: (jsonStringifyL m.2 ++ stringifyObjTail ms))

/-- The remaining array elements, each preceded by `,`, closed by `]`. -/
def stringifyArrTail : List JsValue → List Char
  | [] => [']']
  | v :: vs => ',' :: (jsonStringifyL v ++ stringifyArrTail vs)

/-- The remaining object members, each preceded by `,`, closed by `}`. -/
def stringifyObjTail : List (String × JsValue) → List Char
  | [] => ['}']
  | m :: ms => ',' :: (stringChars m.1 ++ ':' :: (jsonStringifyL m.2 ++ stringifyObjTail ms))

end

/-- `JSON.stringify` as a string-producing function. -/
def jsonStringify (v : JsValue) : String := String.mk (jsonStringifyL v)

/-! ### Round-trip: `jsonParse` inverts `jsonStringify` -/

/-- Input that cannot extend a digit run: empty, or starting with a non-digit. -/
def nonDigitStart : List Char → Bool
  | [] => true
  | c :: _ => !(isDigitCh c)

theorem digitChar_spec : ∀ d, d < 10 →
    digitVal (digitChar d) = d ∧ isDigitCh (digitChar d) = true := by decide

theorem natDigitsRev_digits (n : Nat) : ∀ c ∈ natDigitsRev n, isDigitCh c = true := by
  induction n using Nat.strongRecOn with
  | ind n ih =>
    rw [natDigitsRev]
    split
    · intro c hc
      rw [List.mem_singleton] at hc
      subst hc
      exact (digitChar_spec n (by omega)).2
    · intro c hc
      rcases List.mem_cons.mp hc with h | h
      · subst h
        exact (digitChar_spec (n % 10) (Nat.mod_lt _ (by omega))).2
      · exact ih (n / 10) (Nat.div_lt_self (by omega) (by omega)) c h

theorem natDigits_digits (n : Nat) : ∀ c ∈ natDigits n, isDigitCh c = true := by
  intro c hc
  exact natDigitsRev_digits n c (List.mem_reverse.mp hc)

theorem natDigitsRev_ne_nil (n : Nat) : natDigitsRev n ≠ [] := by
  rw [natDigitsRev]
  split <;> simp

theorem natDigits_ne_nil (n : Nat) : natDigits n ≠ [] := by
  simp [natDigits, natDigitsRev_ne_nil]

theorem digitsVal_append_last (ds : List Char) (c : Char) :
    digitsVal (ds ++ [c]) = 10 * digitsVal ds + digitVal c := by
  simp [digitsVal, List.foldl_append]

theorem digitsVal_natDigits (n : Nat) : digitsVal (natDigits n) = n := by
  induction n using Nat.strongRecOn with
  | ind n ih =>
    rw [natDigits, natDigitsRev]
    split
    · simp [digitsVal, (digitChar_spec n (by omega)).1]
    · rw [List.reverse_cons, digitsVal_append_last]
      have h1 : digitsVal (natDigitsRev (n / 10)).reverse = n / 10 :=
        ih (n / 10) (Nat.div_lt_self (by omega) (by omega))
      rw [show (natDigitsRev (n / 10)).reverse = natDigits (n / 10) from rfl] at h1 ⊢
      rw [h1, (digitChar_spec (n % 10) (Nat.mod_lt _ (by omega))).1]
      omega

theorem grabDigits_stop {rest : List Char} (h : nonDigitStart rest = true) :
    grabDigits rest = ([], rest) := by
  match rest with
  | [] => rfl
  | c :: t =>
    simp only [nonDigitStart, Bool.not_eq_true'] at h
    simp [grabDigits, h]

theorem grabDigits_run (ds : List Char) (hds : ∀ c ∈ ds, isDigitCh c = true)
    (rest : List Char) (hrest : nonDigitStart rest = true) :
    grabDigits (ds ++ rest) = (ds, rest) := by
  induction ds with
  | nil => simpa using grabDigits_stop hrest
  | cons c t ih =>
    have hc : isDigitCh c = true := hds c (by simp)
    have ht := ih (fun x hx => hds x (by simp [hx]))
    simp [grabDigits, hc, ht]

theorem digit_head_facts {c : Char} (h : isDigitCh c = true) :
    c ≠ '-' ∧ c ≠ 'n' ∧ c ≠ 't' ∧ c ≠ 'f' ∧ c ≠ '"' ∧ c ≠ '[' ∧ c ≠ '{' ∧
    c ≠ ']' ∧ c ≠ '}' ∧ c ≠ ',' ∧ c ≠ ':' := by
  refine ⟨?_, ?_, ?_, ?_, ?_, ?_, ?_, ?_, ?_, ?_, ?_⟩ <;>
    (intro hc; subst hc; exact absurd h (by decide))

theorem natDigits_head (n : Nat) :
    ∃ c t, natDigits n = c :: t ∧ isDigitCh c = true := by
  match h : natDigits n with
  | [] => exact absurd h (natDigits_ne_nil n)
  | c :: t => exact ⟨c, t, rfl, natDigits_digits n c (h ▸ List.mem_cons_self ..)⟩

/-- Parsing an integer numeral off its rendered characters recovers it. -/
theorem parseJsonInt_intChars (i : Int) (rest : List Char)
    (hrest : nonDigitStart rest = true) :
    parseJsonInt (intChars i ++ rest) = some (.num i, rest) := by
  obtain ⟨c, t, hct, hdig⟩ := natDigits_head i.natAbs
  by_cases hi : i < 0
  · have harg : intChars i ++ rest = '-' :: (natDigits i.natAbs ++ rest) := by
      simp [intChars, hi]
    rw [harg]
    simp only [parseJsonInt]
    rw [grabDigits_run _ (natDigits_digits _) _ hrest]
    simp [natDigits_ne_nil, digitsVal_natDigits, abs_of_neg hi]
  · have harg : intChars i ++ rest = c :: (t ++ rest) := by
      simp [intChars, hi, hct]
    rw [harg]
    have hm : c ≠ '-' := (digit_head_facts hdig).1
    rw [parseJsonInt.eq_def]
    split
    · rename_i heq
      rw [List.cons.injEq] at heq
      exact absurd heq.1 hm
    · rw [show c :: (t ++ rest) = natDigits i.natAbs ++ rest from by rw [hct]; rfl]
      rw [grabDigits_run _ (natDigits_digits _) _ hrest]
      simp [natDigits_ne_nil, digitsVal_natDigits, abs_of_nonneg (by omega : (0:Int) ≤ i)]

theorem hexDigitVal_hexDigit : ∀ d, d < 16 → hexDigitVal (hexDigit d) = some d := by decide

/-- Parsing one escaped character undoes `escapeChar`. -/
theorem parseStringBody_escapeChar (c : Char) (acc rest : List Char) :
    parseStringBody acc (escapeChar c ++ rest) = parseStringBody (c :: acc) rest := by
  rw [escapeChar]
  split
  · rename_i h; subst h; rfl
  split
  · rename_i h; subst h; rfl
  split
  · rename_i h; subst h; rfl
  split
  · rename_i h; subst h; rfl
  split
  · rename_i h; subst h; rfl
  split
  · rename_i h; subst h; rfl
  split
  · rename_i h; subst h; rfl
  split
  · rename_i hlt
    simp only [List.cons_append, List.nil_append]
    have h16a : c.toNat / 16 < 16 := by omega
    have h16b : c.toNat % 16 < 16 := Nat.mod_lt _ (by omega)
    rw [parseStringBody]
    simp only [show hexDigitVal '0' = some 0 from rfl,
      hexDigitVal_hexDigit _ h16a, hexDigitVal_hexDigit _ h16b]
    have harith : ((0 * 16 + 0) * 16 + c.toNat / 16) * 16 + c.toNat % 16 = c.toNat := by omega
    rw [harith, Char.ofNat_toNat]
  · rename_i h1 h2 h3 h4 h5 h6 h7 hge
    simp only [List.cons_append, List.nil_append]
    rw [parseStringBody.eq_def]
    split
    · rename_i heq
      rw [List.cons.injEq] at heq
      exact absurd heq.1 h1
    · rename_i heq
      rw [List.cons.injEq] at heq
      exact absurd heq.1 h2
    · rename_i heq
      rw [List.cons.injEq] at heq
      exact absurd heq.1 h2
    · rename_i heq
      injection heq with hc hr
      subst hc
      subst hr
      rfl
    · rename_i heq
      simp at heq

/-- Parsing an escaped character run stops at the closing quote. -/
theorem parseStringBody_flatMap (cs : List Char) : ∀ (acc rest : List Char),
    parseStringBody acc (cs.flatMap escapeChar ++ '"' :: rest)
      = some (String.mk (acc.reverse ++ cs), rest) := by
  induction cs with
  | nil =>
    intro acc rest
    simp [parseStringBody]
  | cons c cs ih =>
    intro acc rest
    rw [List.flatMap_cons, List.append_assoc, parseStringBody_escapeChar, ih]
    simp

/-- The string-literal round-trip: parsing the rendered body recovers `s`. -/
theorem parseStringBody_stringChars (s : String) (rest : List Char) :
    parseStringBody [] (s.data.flatMap escapeChar ++ '"' :: rest) = some (s, rest) := by
  rw [parseStringBody_flatMap]
  cases s
  rfl

/-! ### Size bound and the main round-trip induction -/

mutual

/-- Node count of a JSON value, a lower bound for the parser fuel it needs. -/
def jsize : JsValue → Nat
  | .null => 1
  | .bool _ => 1
  | .num _ => 1
  | .str _ => 1
  | .arr vs => 1 + jsizeArr vs
  | .obj ms => 1 + jsizeObj ms

/-- Combined node count of array elements. -/
def jsizeArr : List JsValue → Nat
  | [] => 0
  | v :: vs => 1 + jsize v + jsizeArr vs

/-- Combined node count of object member values. -/
def jsizeObj : List (String × JsValue) → Nat
  | [] => 0
  | m :: ms => 1 + jsize m.2 + jsizeObj ms

end

mutual

theorem jsize_le_len : ∀ v : JsValue, jsize v ≤ (jsonStringifyL v).length
  | .null => by simp [jsize, jsonStringifyL]
  | .bool b => by cases b <;> simp [jsize, jsonStringifyL]
  | .num i => by
    have := natDigits_ne_nil i.natAbs
    simp only [jsize, jsonStringifyL, intChars, List.length_append]
    have : 1 ≤ (natDigits i.natAbs).length := by
      cases h : natDigits i.natAbs with
      | nil => exact absurd h (natDigits_ne_nil _)
      | cons a t => simp
    omega
  | .str s => by simp [jsize, jsonStringifyL, stringChars]
  | .arr [] => by simp [jsize, jsizeArr, jsonStringifyL]
  | .arr (v :: vs) => by
    have h1 := jsize_le_len v
    have h2 := jsizeArr_lt_len vs
    simp only [jsize, jsizeArr, jsonStringifyL, List.length_cons, List.length_append]
    omega
  | .obj [] => by simp [jsize, jsizeObj, jsonStringifyL]
  | .obj (m :: ms) => by
    have h1 := jsize_le_len m.2
    have h2 := jsizeObj_lt_len ms
    simp only [jsize, jsizeObj, jsonStringifyL, List.length_cons, List.length_append]
    omega

theorem jsizeArr_lt_len : ∀ vs : List JsValue, jsizeArr vs < (stringifyArrTail vs).length
  | [] => by simp [jsizeArr, stringifyArrTail]
  | v :: vs => by
    have h1 := jsize_le_len v
    have h2 := jsizeArr_lt_len vs
    simp only [jsizeArr, stringifyArrTail, List.length_cons, List.length_append]
    omega

theorem jsizeObj_lt_len : ∀ ms : List (String × JsValue), jsizeObj ms < (stringifyObjTail ms).length
  | [] => by simp [jsizeObj, stringifyObjTail]
  | m :: ms => by
    have h1 := jsize_le_len m.2
    have h2 := jsizeObj_lt_len ms
    simp only [jsizeObj, stringifyObjTail, List.length_cons, List.length_append]
    omega

end

/-- Every rendered value starts with a character that closes nothing. -/
theorem jsonStringifyL_head (v : JsValue) :
    ∃ c t, jsonStringifyL v = c :: t ∧ c ≠ ']' ∧ c ≠ '}' := by
  cases v with
  | null => exact ⟨'n', _, rfl, by decide, by decide⟩
  | bool b =>
    cases b with
    | true => exact ⟨'t', _, rfl, by decide, by decide⟩
    | false => exact ⟨'f', _, rfl, by decide, by decide⟩
  | num i =>
    by_cases hi : i < 0
    · refine ⟨'-', natDigits i.natAbs, ?_, by decide, by decide⟩
      simp [jsonStringifyL, intChars, hi]
    · obtain ⟨c, t, hct, hdig⟩ := natDigits_head i.natAbs
      refine ⟨c, t, ?_, (digit_head_facts hdig).2.2.2.2.2.2.2.1,
        (digit_head_facts hdig).2.2.2.2.2.2.2.2.1⟩
      simp [jsonStringifyL, intChars, hi, hct]
  | str s => exact ⟨'"', _, rfl, by decide, by decide⟩
  | arr vs =>
    cases vs with
    | nil => exact ⟨'[', _, rfl, by decide, by decide⟩
    | cons v vs => exact ⟨'[', _, rfl, by decide, by decide⟩
  | obj ms =>
    cases ms with
    | nil => exact ⟨'{', _, rfl, by decide, by decide⟩
    | cons m ms => exact ⟨'{', _, rfl, by decide, by decide⟩

theorem nonDigitStart_arrTail (vs : List JsValue) (x : List Char) :
    nonDigitStart (stringifyArrTail vs ++ x) = true := by
  cases vs <;> simp [stringifyArrTail, nonDigitStart] <;> decide

theorem nonDigitStart_objTail (ms : List (String × JsValue)) (x : List Char) :
    nonDigitStart (stringifyObjTail ms ++ x) = true := by
  cases ms <;> simp [stringifyObjTail, nonDigitStart] <;> decide

/-- One-step unfolding of `parseJsonVal` at successor fuel (definitional). -/
theorem parseJsonVal_step (f : Nat) (cs : List Char) :
    parseJsonVal (f + 1) cs
      = (match cs with
         | 'n' :: 'u' :: 'l' :: 'l' :: rest => some (.null, rest)
         | 't' :: 'r' :: 'u' :: 'e' :: rest => some (.bool true, rest)
         | 'f' :: 'a' :: 'l' :: 's' :: 'e' :: rest => some (.bool false, rest)
         | '"' :: rest =>
           match parseStringBody [] rest with
           | some (s, r1) => some (.str s, r1)
           | none => none
         | '[' :: (']' :: rest) => some (.arr [], rest)
         | '[' :: rest =>
           match parseJsonVal f rest with
           | none => none
           | some (v, r1) =>
             match parseJsonArrTail f r1 with
             | none => none
             | some (vs, r2) => some (.arr (v :: vs), r2)
         | '{' :: ('}' :: rest) => some (.obj [], rest)
         | '{' :: ('"' :: rest) =>
           match parseStringBody [] rest with
           | none => none
           | some (k, r1) =>
             match r1 with
             | ':' :: r2 =>
               match parseJsonVal f r2 with
               | none => none
               | some (v, r3) =>
                 match parseJsonObjTail f r3 with
                 | none => none
                 | some (ms, r4) => some (.obj ((k, v) :: ms), r4)
             | _ => none
         | '{' :: _ => none
         | c :: rest =>
           if c = '-' ∨ isDigitCh c = true then parseJsonInt (c :: rest) else none
         | [] => none) := rfl

/-- One-step unfolding of `parseJsonArrTail` at successor fuel (definitional). -/
theorem parseJsonArrTail_step (f : Nat) (cs : List Char) :
    parseJsonArrTail (f + 1) cs
      = (match cs with
         | ']' :: rest => some ([], rest)
         | ',' :: rest =>
           match parseJsonVal f rest with
           | none => none
           | some (v, r1) =>
             match parseJsonArrTail f r1 with
             | none => none
             | some (vs, r2) => some (v :: vs, r2)
         | _ => none) := rfl

/-- One-step unfolding of `parseJsonObjTail` at successor fuel (definitional). -/
theorem parseJsonObjTail_step (f : Nat) (cs : List Char) :
    parseJsonObjTail (f + 1) cs
      = (match cs with
         | '}' :: rest => some ([], rest)
         | ',' :: ('"' :: rest) =>
           match parseStringBody [] rest with
           | none => none
           | some (k, r1) =>
             match r1 with
             | ':' :: r2 =>
               match parseJsonVal f r2 with
               | none => none
               | some (v, r3) =>
                 match parseJsonObjTail f r3 with
                 | none => none
                 | some (ms, r4) => some ((k, v) :: ms, r4)
             | _ => none
         | _ => none) := rfl

/-- A value whose input starts with none of the structural characters parses
through the integer numeral branch. -/
theorem parseJsonVal_default (f : Nat) (c0 : Char) (t : List Char)
    (hout : c0 ∉ (['n', 't', 'f', '"', '[', '{'] : List Char)) :
    parseJsonVal (f + 1) (c0 :: t)
      = if c0 = '-' ∨ isDigitCh c0 = true then parseJsonInt (c0 :: t) else none := by
  simp only [List.mem_cons, List.not_mem_nil, or_false, not_or] at hout
  obtain ⟨hn, ht, hf, hq, hbk, hbc⟩ := hout
  rw [parseJsonVal_step]
  split
  · rename_i heq; rw [List.cons.injEq] at heq; exact absurd heq.1 hn
  · rename_i heq; rw [List.cons.injEq] at heq; exact absurd heq.1 ht
  · rename_i heq; rw [List.cons.injEq] at heq; exact absurd heq.1 hf
  · rename_i heq; rw [List.cons.injEq] at heq; exact absurd heq.1 hq
  · rename_i heq; rw [List.cons.injEq] at heq; exact absurd heq.1 hbk
  · rename_i heq; rw [List.cons.injEq] at heq; exact absurd heq.1 hbk
  · rename_i heq; rw [List.cons.injEq] at heq; exact absurd heq.1 hbc
  · rename_i heq; rw [List.cons.injEq] at heq; exact absurd heq.1 hbc
  · rename_i heq; rw [List.cons.injEq] at heq; exact absurd heq.1 hbc
  · rename_i heq
    injection heq with hc hr
    subst hc
    subst hr
    rfl
  · rename_i heq; simp at heq

/-- The array branch of the parser, for a nonempty rendered first element. -/
theorem parseJsonVal_arrCons (f : Nat) (v : JsValue) (x : List Char) :
    parseJsonVal (f + 1) ('[' :: (jsonStringifyL v ++ x))
      = (match parseJsonVal f (jsonStringifyL v ++ x) with
         | none => none
         | some (w, r1) =>
           match parseJsonArrTail f r1 with
           | none => none
           | some (ws, r2) => some (.arr (w :: ws), r2)) := by
  obtain ⟨c, t, hct, hbr, _⟩ := jsonStringifyL_head v
  rw [hct, List.cons_append]
  rw [parseJsonVal_step]
  split
  · rename_i heq; rw [List.cons.injEq] at heq; exact absurd heq.1 (by decide)
  · rename_i heq; rw [List.cons.injEq] at heq; exact absurd heq.1 (by decide)
  · rename_i heq; rw [List.cons.injEq] at heq; exact absurd heq.1 (by decide)
  · rename_i heq; rw [List.cons.injEq] at heq; exact absurd heq.1 (by decide)
  · rename_i heq
    rw [List.cons.injEq, List.cons.injEq] at heq
    exact absurd heq.2.1 hbr
  · rename_i heq
    rw [List.cons.injEq] at heq
    rw [← heq.2]
  · rename_i heq; rw [List.cons.injEq] at heq; exact absurd heq.1 (by decide)
  · rename_i heq; rw [List.cons.injEq] at heq; exact absurd heq.1 (by decide)
  · rename_i heq; rw [List.cons.injEq] at heq; exact absurd heq.1 (by decide)
  · rename_i hnotbk h2 h1 h0 heq
    rw [List.cons.injEq] at heq
    exact absurd heq.1.symm hnotbk
  · rename_i heq; simp at heq

/-- The string branch of the parser (definitional). -/
theorem parseJsonVal_strCase (f : Nat) (xs : List Char) :
    parseJsonVal (f + 1) ('"' :: xs)
      = (match parseStringBody [] xs with
         | some (s, r1) => some (.str s, r1)
         | none => none) := rfl

/-- The object branch of the parser at a rendered key (definitional). -/
theorem parseJsonVal_objCase (f : Nat) (xs : List Char) :
    parseJsonVal (f + 1) ('{' :: ('"' :: xs))
      = (match parseStringBody [] xs with
         | none => none
         | some (k, r1) =>
           match r1 with
           | ':' :: r2 =>
             match parseJsonVal f r2 with
             | none => none
             | some (v, r3) =>
               match parseJsonObjTail f r3 with
               | none => none
               | some (ms, r4) => some (.obj ((k, v) :: ms), r4)
           | _ => none) := rfl

/-- The comma branch of the array-tail parser (definitional). -/
theorem parseJsonArrTail_consCase (f : Nat) (xs : List Char) :
    parseJsonArrTail (f + 1) (',' :: xs)
      = (match parseJsonVal f xs with
         | none => none
         | some (v, r1) =>
           match parseJsonArrTail f r1 with
           | none => none
           | some (vs, r2) => some (v :: vs, r2)) := rfl

/-- The comma branch of the object-tail parser (definitional). -/
theorem parseJsonObjTail_consCase (f : Nat) (xs : List Char) :
    parseJsonObjTail (f + 1) (',' :: ('"' :: xs))
      = (match parseStringBody [] xs with
         | none => none
         | some (k, r1) =>
           match r1 with
           | ':' :: r2 =>
             match parseJsonVal f r2 with
             | none => none
             | some (v, r3) =>
               match parseJsonObjTail f r3 with
               | none => none
               | some (ms, r4) => some ((k, v) :: ms, r4)
           | _ => none) := rfl

/-- The round-trip induction on fuel: with fuel above the node count, parsing
a rendered value (or element / member tail) recovers it, leaving the rest. -/
theorem parseJson_rt : ∀ fuel : Nat,
    (∀ (v : JsValue) (rest : List Char), jsize v < fuel → nonDigitStart rest = true →
      parseJsonVal fuel (jsonStringifyL v ++ rest) = some (v, rest)) ∧
    (∀ (vs : List JsValue) (rest : List Char), jsizeArr vs < fuel → nonDigitStart rest = true →
      parseJsonArrTail fuel (stringifyArrTail vs ++ rest) = some (vs, rest)) ∧
    (∀ (ms : List (String × JsValue)) (rest : List Char),
      jsizeObj ms < fuel → nonDigitStart rest = true →
      parseJsonObjTail fuel (stringifyObjTail ms ++ rest) = some (ms, rest))
  | 0 => by
    refine ⟨?_, ?_, ?_⟩ <;> exact fun a rest h hrest => absurd h (by omega)
  | f + 1 => by
    obtain ⟨ihv, iha, iho⟩ := parseJson_rt f
    refine ⟨?_, ?_, ?_⟩
    · intro v rest hsz hrest
      cases v with
      | null => rfl
      | bool b => cases b <;> rfl
      | num i =>
        have hint := parseJsonInt_intChars i rest hrest
        by_cases hi : i < 0
        · have harg : intChars i ++ rest = '-' :: (natDigits i.natAbs ++ rest) := by
            simp [intChars, hi]
          rw [show jsonStringifyL (.num i) = intChars i from rfl, harg,
            parseJsonVal_default f '-' _ (by decide)]
          rw [if_pos (Or.inl rfl), ← harg, hint]
        · obtain ⟨c, t, hct, hdig⟩ := natDigits_head i.natAbs
          have hfacts := digit_head_facts hdig
          have harg : intChars i ++ rest = c :: (t ++ rest) := by
            simp [intChars, hi, hct]
          rw [show jsonStringifyL (.num i) = intChars i from rfl, harg,
            parseJsonVal_default f c _ (by
              simp only [List.mem_cons, List.not_mem_nil, or_false, not_or]
              exact ⟨hfacts.2.1, hfacts.2.2.1, hfacts.2.2.2.1, hfacts.2.2.2.2.1,
                hfacts.2.2.2.2.2.1, hfacts.2.2.2.2.2.2.1⟩)]
          rw [if_pos (Or.inr hdig), ← harg, hint]
      | str s =>
        have harg : jsonStringifyL (.str s) ++ rest
            = '"' :: (s.data.flatMap escapeChar ++ '"' :: rest) := by
          simp [jsonStringifyL, stringChars]
        rw [harg, parseJsonVal_strCase, parseStringBody_stringChars]
      | arr vs =>
        cases vs with
        | nil => rfl
        | cons v vs =>
          have hs : jsize v < f ∧ jsizeArr vs < f := by
            simp only [jsize, jsizeArr] at hsz
            omega
          have harg : jsonStringifyL (.arr (v :: vs)) ++ rest
              = '[' :: (jsonStringifyL v ++ (stringifyArrTail vs ++ rest)) := by
            simp [jsonStringifyL]
          rw [harg, parseJsonVal_arrCons,
            ihv v _ hs.1 (nonDigitStart_arrTail vs rest)]
          simp [iha vs rest hs.2 hrest]
      | obj ms =>
        cases ms with
        | nil => rfl
        | cons m ms =>
          obtain ⟨k, v⟩ := m
          have hs : jsize v < f ∧ jsizeObj ms < f := by
            simp only [jsize, jsizeObj] at hsz
            omega
          have harg : jsonStringifyL (.obj ((k, v) :: ms)) ++ rest
              = '{' :: ('"' :: (k.data.flatMap escapeChar
                  ++ '"' :: (':' :: (jsonStringifyL v ++ (stringifyObjTail ms ++ rest))))) := by
            simp [jsonStringifyL, stringChars]
          rw [harg, parseJsonVal_objCase, parseStringBody_stringChars]
          simp [ihv v _ hs.1 (nonDigitStart_objTail ms rest), iho ms rest hs.2 hrest]
    · intro vs rest hsz hrest
      cases vs with
      | nil => rfl
      | cons v vs =>
        have hs : jsize v < f ∧ jsizeArr vs < f := by
          simp only [jsizeArr] at hsz
          omega
        have harg : stringifyArrTail (v :: vs) ++ rest
            = ',' :: (jsonStringifyL v ++ (stringifyArrTail vs ++ rest)) := by
          simp [stringifyArrTail]
        rw [harg, parseJsonArrTail_consCase,
          ihv v _ hs.1 (nonDigitStart_arrTail vs rest)]
        simp [iha vs rest hs.2 hrest]
    · intro ms rest hsz hrest
      cases ms with
      | nil => rfl
      | cons m ms =>
        obtain ⟨k, v⟩ := m
        have hs : jsize v < f ∧ jsizeObj ms < f := by
          simp only [jsizeObj] at hsz
          omega
        have harg : stringifyObjTail ((k, v) :: ms) ++ rest
            = ',' :: ('"' :: (k.data.flatMap escapeChar
                ++ '"' :: (':' :: (jsonStringifyL v ++ (stringifyObjTail ms ++ rest))))) := by
          simp [stringifyObjTail, stringChars]
        rw [harg, parseJsonObjTail_consCase, parseStringBody_stringChars]
        simp [ihv v _ hs.1 (nonDigitStart_objTail ms rest), iho ms rest hs.2 hrest]

/-- **Codec round-trip**: `JSON.parse` inverts `JSON.stringify` on every value. -/
theorem jsonParse_jsonStringify (v : JsValue) : jsonParse (jsonStringify v) = some v := by
  have hlen := jsize_le_len v
  have h := (parseJson_rt ((jsonStringifyL v).length + 1)).1 v [] (by omega) rfl
  rw [List.append_nil] at h
  simp only [jsonParse, jsonStringify]
  rw [h]

/-! ## Data model (`payment-provider.interface.ts`, `payment-events.ts`) -/

/-- `PaymentMethod` of `payment-provider.interface.ts`. -/
inductive PaymentMethod where
  | WAVE : PaymentMethod
  | ORANGE_MONEY : PaymentMethod
  | CREDIT_CARD : PaymentMethod
deriving DecidableEq, Repr

/-- `PaymentEventType` of `payment-events.ts`. -/
inductive PaymentEventType where
  | PAYMENT_INITIATED : PaymentEventType
  | PAYMENT_SUCCESSFUL : PaymentEventType
  | PAYMENT_FAILED : PaymentEventType
  | PAYMENT_CANCELLED : PaymentEventType
deriving DecidableEq, Repr

/-- `TransactionStatus` of `payment-provider.interface.ts`. -/
inductive TransactionStatus where
  | PENDING : TransactionStatus
  | SUCCESS : TransactionStatus
  | FAILED : TransactionStatus
  | CANCELLED : TransactionStatus
deriving DecidableEq, Repr

/-- Modelled from the spec: `PaymentErrorType` of `payment-error.ts`, a file of
this repository that is not under `src/`. Its members are the tags the
providers' visible constructor calls use, per the spec's taxonomy (§7) of
distinguishable error conditions. -/
inductive PaymentErrorType where
  | UNSUPPORTED_PAYMENT_METHOD : PaymentErrorType
  | UNKNOWN_ERROR : PaymentErrorType
  | INVALID_AUTHORIZATION_CODE : PaymentErrorType
  | INVALID_PHONE_NUMBER : PaymentErrorType
deriving DecidableEq, Repr

/-- Modelled from the spec: `PaymentError` of `payment-error.ts` (not under
`src/`), the typed error raised on caller-integration errors (§7: "raised as a
distinguishable error condition"); it carries a message and a tag, matching
the two-argument constructor calls visible in the providers. -/
structure PaymentError where
  message : String
  errorType : PaymentErrorType
deriving DecidableEq, Repr

/-- A canonical payment event (`payment-events.ts`), the four shapes merged:
`reason` is present only on the failed/cancelled shapes. Fields hold the JS
runtime values: webhook-derived strings may be `undefined` (`none`), the
amount is a JS number (`none` is `NaN`), the currency is the raw string the
provider gave (the TS `as Currency` cast does not check it). -/
structure PaymentEvent where
  type : PaymentEventType
  transactionId : Option String
  transactionReference : Option String
  transactionAmount : Option ℚ
  transactionCurrency : Option String
  paymentMethod : Option PaymentMethod
  metadata : List (String × JsValue)
  reason : Option String
  paymentProvider : Option String
deriving Repr

/-- JS string truthiness: `undefined`, `null` and `""` are falsy. -/
def strFalsy : Option String → Bool
  | none => true
  | some s => s.isEmpty

/-- Property read on a JS object modelled as a key-value list. -/
def lookupKey (m : List (String × String)) (k : String) : Option String :=
  (m.find? (fun p => p.1 == k)).map (fun p => p.2)

/-- What one `handleWebhook` call produced: the value returned to the HTTP
caller, the events delivered through the emitter in order, and the console
log lines, in order. -/
structure WebhookRun where
  returned : Option PaymentEvent
  emitted : List (PaymentEventType × PaymentEvent)
  logs : List String
deriving Repr

/-- `this.eventEmitter?.emit(t, e)`: delivered only when an emitter is set. -/
def emitIf (attached : Bool) (t : PaymentEventType) (e : PaymentEvent) :
    List (PaymentEventType × PaymentEvent) :=
  if attached then [(t, e)] else []

/-! ## The Stripe provider (`src/unnamed/part_000`) -/

/-- A Stripe checkout session as the webhook handler reads it: `id`,
`amount_total : number | null`, `currency : string | null`, `payment_status`,
and `metadata : Stripe.Metadata | null` (a flat string-to-string map). -/
structure StripeCheckoutSession where
  id : String
  amount_total : Option Int
  currency : Option String
  payment_status : String
  metadata : Option (List (String × String))
deriving Repr

/-- A verified Stripe event: `event.type` and `event.data.object`, read as a
checkout session (the handler's cast). -/
structure StripeEvent where
  type : String
  object : StripeCheckoutSession
deriving Repr

/-- `HandleWebhookOptions` of `payment-provider.interface.ts` (headers only;
`providerName` is unused by the handlers). -/
structure HandleWebhookOptions where
  headers : Option (List (String × String))
deriving Repr

/-- `Number(x)` for `x : number | null`: `Number(null)` is `0`. -/
def numberOfNullable : Option Int → Option ℚ
  | none => some 0
  | some n => some (n : ℚ)

/-- `session.metadata?.transactionId`. -/
def StripeCheckoutSession.metadataTransactionId (s : StripeCheckoutSession) : Option String :=
  s.metadata.bind (fun m => lookupKey m "transactionId")

/-- The per-key structured decode of the local `parseMetadata` helper inside
`handleWebhook`: `JSON.parse` the value, falling back to the raw string on a
parse error (silently: the catch block only returns the value). -/
def parseMetadataValue (s : String) : JsValue :=
  match jsonParse s with
  | some v => v
  | none => .str s

/-- The local `parseMetadata` helper: per-key structured decode via `mapValues`. -/
def parseMetadata (metadata : List (String × String)) : List (String × JsValue) :=
  metadata.map (fun p => (p.1, parseMetadataValue p.2))

/-- State of a `StripePaymentProvider` instance: the webhook secret (from the
config or webhook installation), whether `useEventEmitter` was called, and the
Stripe SDK's `webhooks.constructEvent(rawBody, signature, secret)` — an
external collaborator modelled as an opaque function returning the verified
parsed event or the thrown verification error. -/
structure StripeProviderState where
  webhookSecret : Option String
  eventEmitter : Bool
  constructEvent : String → String → String → Except String StripeEvent

/-- The local `emitSuccessfulPayment` closure of `handleWebhook`
(part_000 lines 195..215). -/
def StripeProviderState.emitSuccessfulPayment (st : StripeProviderState)
    (session : StripeCheckoutSession) : WebhookRun :=
  if strFalsy session.metadataTransactionId then
    { returned := none, emitted := [], logs := ["No transaction ID found in stripe webhook"] }
  else
    let paymentSuccessfulEvent : PaymentEvent := {
      type := .PAYMENT_SUCCESSFUL,
      transactionId := session.metadataTransactionId,
      transactionReference := some session.id,
      transactionAmount := numberOfNullable session.amount_total,
      transactionCurrency := session.currency,
      paymentMethod := some .CREDIT_CARD,
      metadata := parseMetadata (session.metadata.getD []),
      reason := none,
      paymentProvider := some "StripePaymentProvider" }
    { returned := some paymentSuccessfulEvent,
      emitted := emitIf st.eventEmitter .PAYMENT_SUCCESSFUL paymentSuccessfulEvent,
      logs := [] }

/-- `StripePaymentProvider.handleWebhook` (part_000 lines 170..283). -/
def StripeProviderState.handleWebhook (st : StripeProviderState)
    (rawBody : String) (options : HandleWebhookOptions) : WebhookRun :=
  let signature := options.headers.bind (fun hs => lookupKey hs "stripe-signature")
  if strFalsy signature then
    { returned := none, emitted := [], logs := ["No signature found in stripe webhook request"] }
  else if strFalsy st.webhookSecret then
    { returned := none, emitted := [], logs := ["No stripe webhook secret found"] }
  else
    match st.constructEvent rawBody (signature.getD "") (st.webhookSecret.getD "") with
    | .error _ =>
      { returned := none, emitted := [], logs := ["Error verifying stripe webhook signature"] }
    | .ok event =>
      if event.type = "checkout.session.completed" then
        let session := event.object
        if strFalsy session.metadataTransactionId then
          { returned := none, emitted := [], logs := ["No transaction ID found in stripe webhook"] }
        else
          let paymentInitiatedEvent : PaymentEvent := {
            type := .PAYMENT_INITIATED,
            transactionId := session.metadataTransactionId,
            transactionReference := some session.id,
            transactionAmount := numberOfNullable session.amount_total,
            transactionCurrency := session.currency,
            paymentMethod := some .CREDIT_CARD,
            metadata := parseMetadata (session.metadata.getD []),
            reason := none,
            paymentProvider := some "StripePaymentProvider" }
          let firstEmit := emitIf st.eventEmitter .PAYMENT_INITIATED paymentInitiatedEvent
          if session.payment_status = "paid" then
            let tail := st.emitSuccessfulPayment session
            { returned := tail.returned, emitted := firstEmit ++ tail.emitted, logs := tail.logs }
          else
            { returned := some paymentInitiatedEvent, emitted := firstEmit, logs := [] }
      else if event.type = "checkout.session.async_payment_succeeded" then
        st.emitSuccessfulPayment event.object
      else if event.type = "checkout.session.async_payment_failed" then
        let session := event.object
        if strFalsy session.metadataTransactionId then
          { returned := none, emitted := [], logs := ["No transaction ID found in stripe webhook"] }
        else
          let paymentFailedEvent : PaymentEvent := {
            type := .PAYMENT_FAILED,
            transactionId := session.metadataTransactionId,
            transactionReference := some session.id,
            transactionAmount := numberOfNullable session.amount_total,
            transactionCurrency := session.currency,
            paymentMethod := some .CREDIT_CARD,
            metadata := parseMetadata (session.metadata.getD []),
            reason := some "Payment failed",
            paymentProvider := some "StripePaymentProvider" }
          { returned := some paymentFailedEvent,
            emitted := emitIf st.eventEmitter .PAYMENT_FAILED paymentFailedEvent,
            logs := [] }
      else
        { returned := none, emitted := [], logs := [] }

/-- Checkout options common core (`BasicCheckoutOptions`): the Stripe stubs
reject every value of these types without reading them. -/
structure CheckoutCustomer where
  firstName : String
  lastName : String
  email : Option String
  phoneNumber : Option String
deriving Repr

/-- `MobileMoneyCheckoutOptions` (wave / orange-money checkout requests). -/
structure MobileMoneyCheckoutOptions where
  amount : ℚ
  description : String
  currency : String
  transactionId : String
  customer : CheckoutCustomer
  paymentMethod : PaymentMethod
  metadata : List (String × JsValue)
  authorizationCode : Option String
deriving Repr

/-- `CreditCardCheckoutOptions`. -/
structure CreditCardCheckoutOptions where
  amount : ℚ
  description : String
  currency : String
  transactionId : String
  customer : CheckoutCustomer
  cardNumber : String
  cardExpirationMonth : String
  cardExpirationYear : String
  cardCvv : String
  metadata : List (String × JsValue)
deriving Repr

/-- `MobileMoneyPayoutOptions`. -/
structure MobileMoneyPayoutOptions where
  paymentMethod : PaymentMethod
  amount : ℚ
  currency : String
  recipientPhoneNumber : String
  transactionId : String
  transactionReference : String
deriving Repr

/-- `CheckoutResult` of `payment-provider.interface.ts`. -/
structure CheckoutResult where
  transactionId : String
  transactionReference : String
  transactionStatus : TransactionStatus
  transactionAmount : ℚ
  transactionCurrency : String
  redirectUrl : Option String
deriving Repr

/-- `StripePaymentProvider.checkoutMobileMoney` (part_000 lines 67..74):
throws unconditionally, before touching any state. -/
def StripePaymentProvider.checkoutMobileMoney (options : MobileMoneyCheckoutOptions) :
    Except PaymentError CheckoutResult :=
  .error { message := "Stripe does not support mobile money payments",
           errorType := .UNSUPPORTED_PAYMENT_METHOD }

/-- `StripePaymentProvider.checkoutCreditCard` (part_000 lines 76..83). -/
def StripePaymentProvider.checkoutCreditCard (options : CreditCardCheckoutOptions) :
    Except PaymentError CheckoutResult :=
  .error { message := "Stripe does not support credit card payments. Use credit card tokens instead",
           errorType := .UNSUPPORTED_PAYMENT_METHOD }

/-- `StripePaymentProvider.payoutMobileMoney` (part_000 lines 163..168). -/
def StripePaymentProvider.payoutMobileMoney (options : MobileMoneyPayoutOptions) :
    Except PaymentError CheckoutResult :=
  .error { message := "Stripe does not support mobile money payouts",
           errorType := .UNSUPPORTED_PAYMENT_METHOD }

/-- The `metadata` object `checkoutRedirect` embeds in the Stripe session
creation request (part_000 lines 109..112): each caller metadata value
`JSON.stringify`ed by `mapValues`, plus the `transactionId` key. -/
def stripeCheckoutMetadata (metadata : List (String × JsValue)) (transactionId : String) :
    List (String × String) :=
  metadata.map (fun p => (p.1, jsonStringify p.2)) ++ [("transactionId", transactionId)]

/-! ## The Paydunya provider (`src/src/sdk/providers/paydunya.ts`) -/

/-- `PaydunyaPaymentProviderConfig`. -/
structure PaydunyaConfig where
  masterKey : String
  privateKey : String
  publicKey : String
  token : String
  testMode : Bool
  storeName : String
deriving Repr

/-- The `invoice` object of a Paydunya webhook body, fields the handler reads;
each may be absent at runtime (the body is untrusted parsed JSON). -/
structure PaydunyaInvoiceFields where
  token : Option String
  total_amount : Option String
deriving Repr

/-- The `customer` object of a Paydunya webhook body. -/
structure PaydunyaCustomerFields where
  payment_method : Option String
deriving Repr

/-- A Paydunya webhook body at runtime: the fields of
`PaydunyaPaymentWebhookBody` the handler touches, each possibly absent. -/
structure PaydunyaWebhookBody where
  response_code : Option String
  response_text : Option String
  hash : Option String
  invoice : Option PaydunyaInvoiceFields
  custom_data : Option (List (String × String))
  status : Option String
  customer : Option PaydunyaCustomerFields
deriving Repr

/-- A thrown JavaScript error (a property read on `undefined`). -/
inductive JsError where
  | typeError (message : String) : JsError
deriving DecidableEq, Repr

/-- State of a `PaydunyaPaymentProvider` instance: the config, the cached
SHA-512 hex digest of the master key, and whether `useEventEmitter` was
called. -/
structure PaydunyaProviderState where
  config : PaydunyaConfig
  masterKeySha512Hash : String
  eventEmitter : Bool

/-- The constructor (paydunya.ts lines 27..76): besides the HTTP client setup
(an external collaborator), it computes the SHA-512 hex digest of
`config.masterKey` once and caches it. `sha512hex` is Node's
`crypto.createHash("sha512")` pipeline, an opaque digest function. -/
def PaydunyaProviderState.construct (sha512hex : String → String)
    (config : PaydunyaConfig) : PaydunyaProviderState :=
  { config := config,
    masterKeySha512Hash := sha512hex config.masterKey,
    eventEmitter := false }

/-- `useEventEmitter` (paydunya.ts lines 78..80). -/
def PaydunyaProviderState.useEventEmitter (st : PaydunyaProviderState) : PaydunyaProviderState :=
  { st with eventEmitter := true }

/-- `Number(x)` for `x : string | undefined`: `Number(undefined)` is `NaN`. -/
def jsNumberOfField : Option String → Option ℚ
  | none => none
  | some s => jsNumber s

/-- `PaydunyaPaymentProvider.handleWebhook` (paydunya.ts lines 261..321). The
TS method's return type is `Promise<void>`, so `returned` is `none` on every
path; a property read on a possibly-`undefined` object throws `TypeError`
(`customer` before the status dispatch, `invoice` and `custom_data` inside
the recognized-status branches). -/
def PaydunyaProviderState.handleWebhook (st : PaydunyaProviderState)
    (body : PaydunyaWebhookBody) : Except JsError WebhookRun :=
  if strFalsy body.hash then
    .ok { returned := none, emitted := [],
          logs := ["Missing hash in Paydunya webhook body"] }
  else if body.hash ≠ some st.masterKeySha512Hash then
    .ok { returned := none, emitted := [],
          logs := ["Invalid hash in Paydunya webhook body"] }
  else
    match body.customer with
    | none => .error (.typeError "Cannot read properties of undefined (reading 'payment_method')")
    | some customer =>
      let paymentMethod : Option PaymentMethod :=
        if customer.payment_method = some "wave_senegal" then some .WAVE
        else if customer.payment_method = some "orange_money_senegal" then some .ORANGE_MONEY
        else none
      if body.status = some "completed" ∧ body.response_code = some "00" then
        match body.invoice with
        | none => .error (.typeError "Cannot read properties of undefined (reading 'total_amount')")
        | some invoice =>
          match body.custom_data with
          | none => .error (.typeError "Cannot read properties of undefined (reading 'transaction_id')")
          | some customData =>
            let paymentSuccessfulEvent : PaymentEvent := {
              type := .PAYMENT_SUCCESSFUL,
              transactionId := lookupKey customData "transaction_id",
              transactionReference := invoice.token,
              transactionAmount := jsNumberOfField invoice.total_amount,
              transactionCurrency := some "XOF",
              paymentMethod := paymentMethod,
              metadata := customData.map (fun p => (p.1, JsValue.str p.2)),
              reason := none,
              paymentProvider := none }
            .ok { returned := none,
                  emitted := emitIf st.eventEmitter .PAYMENT_SUCCESSFUL paymentSuccessfulEvent,
                  logs := [] }
      else if body.status = some "cancelled" then
        match body.invoice with
        | none => .error (.typeError "Cannot read properties of undefined (reading 'total_amount')")
        | some invoice =>
          match body.custom_data with
          | none => .error (.typeError "Cannot read properties of undefined (reading 'transaction_id')")
          | some customData =>
            let paymentCancelledEvent : PaymentEvent := {
              type := .PAYMENT_CANCELLED,
              transactionId := lookupKey customData "transaction_id",
              transactionReference := invoice.token,
              transactionAmount := jsNumberOfField invoice.total_amount,
              transactionCurrency := some "XOF",
              paymentMethod := paymentMethod,
              metadata := customData.map (fun p => (p.1, JsValue.str p.2)),
              reason := body.response_text,
              paymentProvider := none }
            .ok { returned := none,
                  emitted := emitIf st.eventEmitter .PAYMENT_CANCELLED paymentCancelledEvent,
                  logs := [] }
      else if body.status = some "failed" then
        match body.invoice with
        | none => .error (.typeError "Cannot read properties of undefined (reading 'total_amount')")
        | some invoice =>
          match body.custom_data with
          | none => .error (.typeError "Cannot read properties of undefined (reading 'transaction_id')")
          | some customData =>
            let paymentFailedEvent : PaymentEvent := {
              type := .PAYMENT_FAILED,
              transactionId := lookupKey customData "transaction_id",
              transactionReference := invoice.token,
              transactionAmount := jsNumberOfField invoice.total_amount,
              transactionCurrency := some "XOF",
              paymentMethod := paymentMethod,
              metadata := customData.map (fun p => (p.1, JsValue.str p.2)),
              reason := body.response_text,
              paymentProvider := none }
            .ok { returned := none,
                  emitted := emitIf st.eventEmitter .PAYMENT_FAILED paymentFailedEvent,
                  logs := [] }
      else
        .ok { returned := none, emitted := [], logs := [] }

/-! ## Shared facts and concrete scenario data for the claims -/

theorem strFalsy_eq_false {o : Option String} (h : strFalsy o = false) :
    ∃ s, o = some s ∧ s ≠ "" := by
  match o with
  | none => simp [strFalsy] at h
  | some s =>
    refine ⟨s, rfl, ?_⟩
    intro hs
    subst hs
    simp [strFalsy] at h
    exact absurd h (by decide)

theorem strFalsy_some_of_ne {s : String} (h : s ≠ "") : strFalsy (some s) = false := by
  cases he : s.isEmpty
  · simp [strFalsy, he]
  · exact absurd ((String.isEmpty_iff s).mp he) h

/-- A stand-in digest function for the concrete webhook scenarios (an
arbitrary instantiation of the opaque SHA-512 parameter). -/
def exampleSha512 : String → String := fun s => String.append "sha512:" s

/-- A concrete Paydunya configuration for the scenarios. -/
def examplePaydunyaConfig : PaydunyaConfig :=
  { masterKey := "master-key", privateKey := "pk", publicKey := "pub",
    token := "tk", testMode := true, storeName := "store" }

/-- A Paydunya provider constructed from the example config, with an emitter. -/
def examplePaydunyaState : PaydunyaProviderState :=
  (PaydunyaProviderState.construct exampleSha512 examplePaydunyaConfig).useEventEmitter

/-- A well-formed, hash-verified, completed Paydunya webhook body. -/
def examplePaydunyaSuccessBody : PaydunyaWebhookBody :=
  { response_code := some "00",
    response_text := some "Transaction Found",
    hash := some (exampleSha512 "master-key"),
    invoice := some { token := some "invoice-token", total_amount := some "5000" },
    custom_data := some [("transaction_id", "tx-42")],
    status := some "completed",
    customer := some { payment_method := some "wave_senegal" } }

/-! ## The claims -/

/-- C1 (code bug): `handleWebhook` must never throw, but the Paydunya handler
reads `body.customer.payment_method` without a guard: a hash-verified webhook
body with no `customer` object makes it throw a `TypeError` instead of
completing with a logged null return. This theorem evaluates the embedded
handler at that failing input. -/
theorem C1_paydunya_handleWebhook_throws_on_missing_customer :
    examplePaydunyaState.handleWebhook
      { response_code := some "00",
        response_text := none,
        hash := some (exampleSha512 "master-key"),
        invoice := none,
        custom_data := none,
        status := some "completed",
        customer := none }
      = .error (.typeError "Cannot read properties of undefined (reading 'payment_method')") := by
  rfl

/-- C2 (code bug): on a verified completed Paydunya webhook the handler emits
one PAYMENT_SUCCESSFUL event yet returns no value — its TS return type is
`Promise<void>` although the `PaymentProvider` interface it implements
declares `Promise<PaymentEvent | null>` — so the last emitted event is not
returned. -/
theorem C2_paydunya_emits_but_returns_nothing :
    ∃ run : WebhookRun,
      examplePaydunyaState.handleWebhook examplePaydunyaSuccessBody = .ok run ∧
      run.emitted.map (fun p => p.1) = [.PAYMENT_SUCCESSFUL] ∧
      run.returned = none := by
  exact ⟨_, rfl, rfl, rfl⟩

/-- C3 counterexample: a verified completed Paydunya webhook whose
`custom_data` object lacks `transaction_id` still emits a PAYMENT_SUCCESSFUL
event, and that event's `transactionId` is absent — the invariant that every
emitted event carries a non-empty `transactionId` fails on the Paydunya
provider. -/
theorem C3_counterexample_paydunya_emits_missing_transactionId :
    ∃ e : PaymentEvent,
      examplePaydunyaState.handleWebhook
          { examplePaydunyaSuccessBody with custom_data := some [] }
        = .ok { returned := none, emitted := [(.PAYMENT_SUCCESSFUL, e)], logs := [] } ∧
      e.transactionId = none := by
  exact ⟨_, rfl, rfl⟩

/-- C8: an operation the Stripe provider structurally cannot perform raises a
distinguishable typed error rather than returning silently: for every input,
`checkoutMobileMoney`, `checkoutCreditCard` and `payoutMobileMoney` each
throw a `PaymentError` tagged `UNSUPPORTED_PAYMENT_METHOD`. -/
theorem C8_stripe_unsupported_operations_throw_typed :
    (∀ o : MobileMoneyCheckoutOptions, ∃ e : PaymentError,
      StripePaymentProvider.checkoutMobileMoney o = .error e ∧
      e.errorType = .UNSUPPORTED_PAYMENT_METHOD) ∧
    (∀ o : CreditCardCheckoutOptions, ∃ e : PaymentError,
      StripePaymentProvider.checkoutCreditCard o = .error e ∧
      e.errorType = .UNSUPPORTED_PAYMENT_METHOD) ∧
    (∀ o : MobileMoneyPayoutOptions, ∃ e : PaymentError,
      StripePaymentProvider.payoutMobileMoney o = .error e ∧
      e.errorType = .UNSUPPORTED_PAYMENT_METHOD) :=
  ⟨fun _ => ⟨_, rfl, rfl⟩, fun _ => ⟨_, rfl, rfl⟩, fun _ => ⟨_, rfl, rfl⟩⟩

/-- Every event the Stripe `emitSuccessfulPayment` helper emits carries the
session's (guarded, hence non-empty) transaction id. -/
theorem emitSuccessfulPayment_txn (st : StripeProviderState) (session : StripeCheckoutSession) :
    ∀ te ∈ (st.emitSuccessfulPayment session).emitted,
      ∃ s, te.2.transactionId = some s ∧ s ≠ "" := by
  intro te hte
  unfold StripeProviderState.emitSuccessfulPayment at hte
  cases h : strFalsy session.metadataTransactionId with
  | true => simp [h] at hte
  | false =>
    obtain ⟨s, hs, hne⟩ := strFalsy_eq_false h
    cases hem : st.eventEmitter with
    | false => simp [h, hem, emitIf] at hte
    | true =>
      simp [h, hem, emitIf] at hte
      subst hte
      exact ⟨s, hs, hne⟩

/-- If the session's transaction id is falsy, `emitSuccessfulPayment` returns
nothing and emits nothing. -/
theorem emitSuccessfulPayment_no_txn (st : StripeProviderState)
    (session : StripeCheckoutSession)
    (h : strFalsy session.metadataTransactionId = true) :
    st.emitSuccessfulPayment session
      = { returned := none, emitted := [],
          logs := ["No transaction ID found in stripe webhook"] } := by
  unfold StripeProviderState.emitSuccessfulPayment
  simp [h]

/-- C3 (amended): for the Stripe provider the invariant holds as claimed —
every event `handleWebhook` emits carries a non-empty `transactionId`, and a
verified webhook whose session metadata lacks a usable transaction id yields
zero events and a null return. (The Paydunya provider performs no correlation
check and can emit an event with a missing `transactionId`: see the
counterexample.) -/
theorem C3_stripe_nonempty_transactionId
    (st : StripeProviderState) (rawBody : String) (options : HandleWebhookOptions) :
    (∀ te ∈ (st.handleWebhook rawBody options).emitted,
      ∃ s, te.2.transactionId = some s ∧ s ≠ "") ∧
    (∀ event : StripeEvent,
      st.constructEvent rawBody
          ((options.headers.bind (fun hs => lookupKey hs "stripe-signature")).getD "")
          (st.webhookSecret.getD "") = .ok event →
      strFalsy event.object.metadataTransactionId = true →
      ∃ logs, st.handleWebhook rawBody options
        = { returned := none, emitted := [], logs := logs }) := by
  constructor
  · intro te hte
    simp only [StripeProviderState.handleWebhook] at hte
    split at hte
    · simp at hte
    split at hte
    · simp at hte
    split at hte
    · simp at hte
    split at hte
    · -- checkout.session.completed
      split at hte
      · simp at hte
      rename_i htxnguard
      obtain ⟨s, hs, hne⟩ := strFalsy_eq_false (by simpa using htxnguard)
      split at hte
      · -- payment_status = "paid": initiated ++ successful
        simp only [List.mem_append] at hte
        rcases hte with hte | hte
        · cases hem : st.eventEmitter with
          | false => simp [hem, emitIf] at hte
          | true =>
            simp [hem, emitIf] at hte
            subst hte
            exact ⟨s, hs, hne⟩
        · exact emitSuccessfulPayment_txn st _ te hte
      · -- not paid: initiated only
        cases hem : st.eventEmitter with
        | false => simp [hem, emitIf] at hte
        | true =>
          simp [hem, emitIf] at hte
          subst hte
          exact ⟨s, hs, hne⟩
    split at hte
    · -- async_payment_succeeded
      exact emitSuccessfulPayment_txn st _ te hte
    split at hte
    · -- async_payment_failed
      split at hte
      · simp at hte
      rename_i htxnguard
      obtain ⟨s, hs, hne⟩ := strFalsy_eq_false (by simpa using htxnguard)
      cases hem : st.eventEmitter with
      | false => simp [hem, emitIf] at hte
      | true =>
        simp [hem, emitIf] at hte
        subst hte
        exact ⟨s, hs, hne⟩
    · simp at hte
  · intro event hverify htxn
    simp only [StripeProviderState.handleWebhook]
    split
    · exact ⟨_, rfl⟩
    split
    · exact ⟨_, rfl⟩
    split
    · exact ⟨_, rfl⟩
    rename_i event2 heq
    have hev : event2 = event := by
      rw [hverify] at heq
      injection heq with h2
      exact h2.symm
    subst hev
    by_cases h1 : event2.type = "checkout.session.completed"
    · rw [if_pos h1, if_pos htxn]
      exact ⟨_, rfl⟩
    rw [if_neg h1]
    by_cases h2 : event2.type = "checkout.session.async_payment_succeeded"
    · rw [if_pos h2, emitSuccessfulPayment_no_txn st _ htxn]
      exact ⟨_, rfl⟩
    rw [if_neg h2]
    by_cases h3 : event2.type = "checkout.session.async_payment_failed"
    · rw [if_pos h3, if_pos htxn]
      exact ⟨_, rfl⟩
    rw [if_neg h3]
    exact ⟨_, rfl⟩

/-- A Stripe provider whose (opaque) verifier accepts and yields `event`. -/
def exampleStripeStateFor (event : StripeEvent) : StripeProviderState :=
  { webhookSecret := some "whsec",
    eventEmitter := true,
    constructEvent := fun _ _ _ => .ok event }

/-- Transport metadata carrying a Stripe signature header. -/
def exampleStripeOptions : HandleWebhookOptions :=
  { headers := some [("stripe-signature", "sig")] }

/-- A checkout session correlated to `tx-42`, 5000 XOF, already paid. -/
def examplePaidSession : StripeCheckoutSession :=
  { id := "cs_123",
    amount_total := some 5000,
    currency := some "XOF",
    payment_status := "paid",
    metadata := some [("transactionId", "tx-42")] }

/-- The paid session, but with the payment still settling. -/
def exampleUnpaidSession : StripeCheckoutSession :=
  { examplePaidSession with payment_status := "unpaid" }

/-- A session whose metadata lacks a transaction id. -/
def exampleNoTxnSession : StripeCheckoutSession :=
  { examplePaidSession with metadata := some [] }

/-- Witness for C3: at a concrete verified completed webhook whose session
lacks a transaction id, the handler yields zero events and a null return. -/
theorem C3_stripe_nonempty_transactionId_witness :
    ∃ logs, (exampleStripeStateFor
        { type := "checkout.session.completed", object := exampleNoTxnSession }).handleWebhook
        "raw" exampleStripeOptions
      = { returned := none, emitted := [], logs := logs } :=
  (C3_stripe_nonempty_transactionId _ "raw" exampleStripeOptions).2
    { type := "checkout.session.completed", object := exampleNoTxnSession } rfl rfl

/-- C4: the shared-secret (Paydunya) verifier computes the SHA-512 hex digest
of the configured master secret once at construction and caches it;
`handleWebhook` compares the body's `hash` against that cache only (its
result does not depend on the config the state carries), an event can be
emitted only when the hash equals the cached digest, and a missing or
mismatching hash yields a null result with zero events. -/
theorem C4_paydunya_hash_gate (sha512hex : String → String) (config : PaydunyaConfig)
    (body : PaydunyaWebhookBody) :
    ((PaydunyaProviderState.construct sha512hex config).masterKeySha512Hash
        = sha512hex config.masterKey) ∧
    (∀ (cfg1 cfg2 : PaydunyaConfig) (h : String) (em : Bool),
      PaydunyaProviderState.handleWebhook
          { config := cfg1, masterKeySha512Hash := h, eventEmitter := em } body
        = PaydunyaProviderState.handleWebhook
          { config := cfg2, masterKeySha512Hash := h, eventEmitter := em } body) ∧
    (∀ (st : PaydunyaProviderState) (run : WebhookRun),
      st.handleWebhook body = .ok run → run.emitted ≠ [] →
      body.hash = some st.masterKeySha512Hash) ∧
    (∀ st : PaydunyaProviderState,
      strFalsy body.hash = true ∨ body.hash ≠ some st.masterKeySha512Hash →
      ∃ logs, st.handleWebhook body
        = .ok { returned := none, emitted := [], logs := logs }) := by
  refine ⟨rfl, fun cfg1 cfg2 h em => rfl, ?_, ?_⟩
  · intro st run hok hne
    by_cases hmatch : body.hash = some st.masterKeySha512Hash
    · exact hmatch
    exfalso
    apply hne
    by_cases hh : strFalsy body.hash = true
    · simp only [PaydunyaProviderState.handleWebhook] at hok
      rw [if_pos hh] at hok
      injection hok with h
      rw [← h]
    · simp only [PaydunyaProviderState.handleWebhook] at hok
      rw [if_neg hh, if_pos hmatch] at hok
      injection hok with h
      rw [← h]
  · intro st hcond
    by_cases hh : strFalsy body.hash = true
    · refine ⟨["Missing hash in Paydunya webhook body"], ?_⟩
      simp only [PaydunyaProviderState.handleWebhook]
      rw [if_pos hh]
    · rcases hcond with hcond | hneq
      · exact absurd hcond hh
      · refine ⟨["Invalid hash in Paydunya webhook body"], ?_⟩
        simp only [PaydunyaProviderState.handleWebhook]
        rw [if_neg hh, if_pos hneq]

/-- Witness for C4: a concrete verified-construction provider given a body
whose hash does not match the cached digest returns null with zero events. -/
theorem C4_paydunya_hash_gate_witness :
    ∃ logs, examplePaydunyaState.handleWebhook
        { examplePaydunyaSuccessBody with hash := some "wrong-hash" }
      = .ok { returned := none, emitted := [], logs := logs } :=
  (C4_paydunya_hash_gate exampleSha512 examplePaydunyaConfig
      { examplePaydunyaSuccessBody with hash := some "wrong-hash" }).2.2.2
    examplePaydunyaState (Or.inr (by decide))

/-- C5: a verified `checkout.session.completed` webhook whose session has
`metadata.transactionId = "tx-42"`, `amount_total = 5000` and currency
`"XOF"`: when `payment_status = "paid"`, the handler emits PAYMENT_INITIATED
before PAYMENT_SUCCESSFUL and returns the successful event with
transactionId `"tx-42"`, amount `5000`, currency `"XOF"`; when the status is
not `"paid"`, it emits exactly one PAYMENT_INITIATED event and returns it. -/
theorem C5_stripe_checkout_completed_scenarios
    (st : StripeProviderState) (rawBody : String) (options : HandleWebhookOptions)
    (sig : String) (session : StripeCheckoutSession)
    (hem : st.eventEmitter = true)
    (hsig : options.headers.bind (fun hs => lookupKey hs "stripe-signature") = some sig)
    (hsigne : sig ≠ "")
    (hsec : strFalsy st.webhookSecret = false)
    (hverify : st.constructEvent rawBody sig (st.webhookSecret.getD "")
      = .ok { type := "checkout.session.completed", object := session })
    (htxn : session.metadataTransactionId = some "tx-42")
    (hamt : session.amount_total = some 5000)
    (hcur : session.currency = some "XOF") :
    (session.payment_status = "paid" →
      ∃ e1 e2 : PaymentEvent,
        st.handleWebhook rawBody options
          = { returned := some e2,
              emitted := [(.PAYMENT_INITIATED, e1), (.PAYMENT_SUCCESSFUL, e2)],
              logs := [] } ∧
        e1.type = .PAYMENT_INITIATED ∧
        e2.type = .PAYMENT_SUCCESSFUL ∧
        e2.transactionId = some "tx-42" ∧
        e2.transactionAmount = some 5000 ∧
        e2.transactionCurrency = some "XOF") ∧
    (session.payment_status ≠ "paid" →
      ∃ e1 : PaymentEvent,
        st.handleWebhook rawBody options
          = { returned := some e1, emitted := [(.PAYMENT_INITIATED, e1)], logs := [] } ∧
        e1.type = .PAYMENT_INITIATED ∧
        e1.transactionId = some "tx-42" ∧
        e1.transactionAmount = some 5000 ∧
        e1.transactionCurrency = some "XOF") := by
  have hfalse : strFalsy (some sig) = false := strFalsy_some_of_ne hsigne
  have htxnf : strFalsy session.metadataTransactionId = false := by
    rw [htxn]
    decide
  constructor
  · intro hpaid
    refine ⟨{ type := .PAYMENT_INITIATED,
              transactionId := session.metadataTransactionId,
              transactionReference := some session.id,
              transactionAmount := numberOfNullable session.amount_total,
              transactionCurrency := session.currency,
              paymentMethod := some .CREDIT_CARD,
              metadata := parseMetadata (session.metadata.getD []),
              reason := none,
              paymentProvider := some "StripePaymentProvider" },
            { type := .PAYMENT_SUCCESSFUL,
              transactionId := session.metadataTransactionId,
              transactionReference := some session.id,
              transactionAmount := numberOfNullable session.amount_total,
              transactionCurrency := session.currency,
              paymentMethod := some .CREDIT_CARD,
              metadata := parseMetadata (session.metadata.getD []),
              reason := none,
              paymentProvider := some "StripePaymentProvider" }, ?_, rfl, rfl, ?_, ?_, ?_⟩
    · simp [StripeProviderState.handleWebhook, StripeProviderState.emitSuccessfulPayment,
        hsig, hfalse, hsec, hverify, hem, htxnf, hpaid, emitIf]
    · rw [htxn]
    · rw [hamt]
      rfl
    · rw [hcur]
  · intro hnotpaid
    refine ⟨{ type := .PAYMENT_INITIATED,
              transactionId := session.metadataTransactionId,
              transactionReference := some session.id,
              transactionAmount := numberOfNullable session.amount_total,
              transactionCurrency := session.currency,
              paymentMethod := some .CREDIT_CARD,
              metadata := parseMetadata (session.metadata.getD []),
              reason := none,
              paymentProvider := some "StripePaymentProvider" }, ?_, rfl, ?_, ?_, ?_⟩
    · simp [StripeProviderState.handleWebhook, StripeProviderState.emitSuccessfulPayment,
        hsig, hfalse, hsec, hverify, hem, htxnf, hnotpaid, emitIf]
    · rw [htxn]
    · rw [hamt]
      rfl
    · rw [hcur]

/-- Witness for C5: the concrete paid checkout session yields the initiated
event followed by the successful event, and the successful one is returned. -/
theorem C5_stripe_checkout_completed_scenarios_witness :
    ∃ e1 e2 : PaymentEvent,
      (exampleStripeStateFor
          { type := "checkout.session.completed", object := examplePaidSession }).handleWebhook
          "raw" exampleStripeOptions
        = { returned := some e2,
            emitted := [(.PAYMENT_INITIATED, e1), (.PAYMENT_SUCCESSFUL, e2)],
            logs := [] } ∧
      e1.type = .PAYMENT_INITIATED ∧
      e2.type = .PAYMENT_SUCCESSFUL ∧
      e2.transactionId = some "tx-42" ∧
      e2.transactionAmount = some 5000 ∧
      e2.transactionCurrency = some "XOF" :=
  (C5_stripe_checkout_completed_scenarios
    (exampleStripeStateFor { type := "checkout.session.completed", object := examplePaidSession })
    "raw" exampleStripeOptions "sig"
    examplePaidSession rfl rfl (by decide) rfl rfl rfl rfl rfl).1 rfl

/-- C6: the metadata round-trip: per-key `JSON.parse`-with-fallback decoding
(the webhook `parseMetadata`) inverts the per-key `JSON.stringify` encoding
`checkoutRedirect` embeds at checkout time, recovering every structured
value; and a plain-text value that is not parseable as structured syntax
decodes to the identical string (the fallback simply returns the value — the
decoder has no logging channel). -/
theorem C6_metadata_round_trip :
    (∀ metadata : List (String × JsValue),
      parseMetadata (metadata.map (fun p => (p.1, jsonStringify p.2))) = metadata) ∧
    (∀ s : String, jsonParse s = none → parseMetadataValue s = .str s) := by
  constructor
  · intro metadata
    have h1 : (fun p : String × String => (p.1, parseMetadataValue p.2))
        ∘ (fun p : String × JsValue => (p.1, jsonStringify p.2)) = id := by
      funext p
      simp [Function.comp, parseMetadataValue, jsonParse_jsonStringify]
    rw [parseMetadata, List.map_map, h1, List.map_id]
  · intro s h
    simp [parseMetadataValue, h]

/-- Witness for C6: the object with one numeric field survives the encode /
decode trip, and a plain-text value decodes to itself. -/
theorem C6_metadata_round_trip_witness :
    parseMetadata ([(("k" : String), JsValue.obj [("a", JsValue.num 1)])].map
        (fun p => (p.1, jsonStringify p.2)))
      = [("k", JsValue.obj [("a", JsValue.num 1)])] ∧
    parseMetadataValue "plain text" = .str "plain text" :=
  ⟨C6_metadata_round_trip.1 _, C6_metadata_round_trip.2 "plain text" rfl⟩

/-- C7 counterexample: a hash-verified Paydunya webhook with an unrecognized
status ("pending") but no `customer` object throws a `TypeError` instead of
returning null with zero events: the handler dereferences
`body.customer.payment_method` before the status dispatch. -/
theorem C7_counterexample_paydunya_unrecognized_status_throws :
    examplePaydunyaState.handleWebhook
      { response_code := some "99",
        response_text := none,
        hash := some (exampleSha512 "master-key"),
        invoice := none,
        custom_data := none,
        status := some "pending",
        customer := none }
      = .error (.typeError "Cannot read properties of undefined (reading 'payment_method')") := by
  rfl

/-- C7 (amended): a verified webhook with an unrecognized provider status or
event type yields a null return and zero events — for the Stripe provider as
claimed (event type not one of the three `checkout.session.*` values), and
for the Paydunya provider (status not `"completed"`-with-`response_code`
`"00"`, `"cancelled"` or `"failed"`) provided the body's `customer` object is
present, since the handler dereferences `customer` before recognizing the
status and throws otherwise (see the counterexample). -/
theorem C7_unrecognized_status_yields_null :
    (∀ (st : StripeProviderState) (rawBody : String) (options : HandleWebhookOptions)
        (event : StripeEvent),
      st.constructEvent rawBody
          ((options.headers.bind (fun hs => lookupKey hs "stripe-signature")).getD "")
          (st.webhookSecret.getD "") = .ok event →
      event.type ≠ "checkout.session.completed" →
      event.type ≠ "checkout.session.async_payment_succeeded" →
      event.type ≠ "checkout.session.async_payment_failed" →
      ∃ logs, st.handleWebhook rawBody options
        = { returned := none, emitted := [], logs := logs }) ∧
    (∀ (st : PaydunyaProviderState) (body : PaydunyaWebhookBody)
        (customer : PaydunyaCustomerFields),
      body.hash = some st.masterKeySha512Hash →
      st.masterKeySha512Hash ≠ "" →
      body.customer = some customer →
      ¬(body.status = some "completed" ∧ body.response_code = some "00") →
      body.status ≠ some "cancelled" →
      body.status ≠ some "failed" →
      st.handleWebhook body = .ok { returned := none, emitted := [], logs := [] }) := by
  constructor
  · intro st rawBody options event hverify h1 h2 h3
    simp only [StripeProviderState.handleWebhook]
    split
    · exact ⟨_, rfl⟩
    split
    · exact ⟨_, rfl⟩
    split
    · exact ⟨_, rfl⟩
    rename_i event2 heq
    have hev : event2 = event := by
      rw [hverify] at heq
      injection heq with h
      exact h.symm
    subst hev
    rw [if_neg h1, if_neg h2, if_neg h3]
    exact ⟨_, rfl⟩
  · intro st body customer hhash hcne hcust hs1 hs2 hs3
    simp only [PaydunyaProviderState.handleWebhook]
    rw [hhash]
    rw [if_neg (show ¬(strFalsy (some st.masterKeySha512Hash) = true) from by
      rw [strFalsy_some_of_ne hcne]
      decide)]
    rw [if_neg (show ¬(some st.masterKeySha512Hash ≠ some st.masterKeySha512Hash) from
      fun hc => hc rfl)]
    simp only [hcust]
    rw [if_neg hs1, if_neg hs2, if_neg hs3]

/-- Witness for C7: a verified Stripe `checkout.session.expired` event yields
null and zero events, and a verified Paydunya webhook with status
`"pending"` (customer present) does too. -/
theorem C7_unrecognized_status_yields_null_witness :
    (∃ logs, (exampleStripeStateFor
        { type := "checkout.session.expired", object := examplePaidSession }).handleWebhook
        "raw" exampleStripeOptions
      = { returned := none, emitted := [], logs := logs }) ∧
    examplePaydunyaState.handleWebhook
        { examplePaydunyaSuccessBody with status := some "pending" }
      = .ok { returned := none, emitted := [], logs := [] } :=
  ⟨C7_unrecognized_status_yields_null.1
      (exampleStripeStateFor
        { type := "checkout.session.expired", object := examplePaidSession })
      "raw" exampleStripeOptions
      { type := "checkout.session.expired", object := examplePaidSession }
      rfl (by decide) (by decide) (by decide),
   C7_unrecognized_status_yields_null.2 examplePaydunyaState
      { examplePaydunyaSuccessBody with status := some "pending" }
      { payment_method := some "wave_senegal" }
      rfl (by decide) rfl (by decide) (by decide) (by decide)⟩

/-- `Number("5000")` is the number `5000` in the `jsNumber` model. -/
theorem jsNumber_5000 : jsNumber "5000" = some 5000 := by
  have h5 : isDigitCh '5' = true := by decide
  have h0 : isDigitCh '0' = true := by decide
  have d5 : digitVal '5' = 5 := by decide
  have d0 : digitVal '0' = 0 := by decide
  simp [jsNumber, grabDigits, h5, h0, digitsVal, d5, d0]

/-- C9: amounts are coerced to numbers at the Paydunya decode boundary and
never propagated as strings: every event `handleWebhook` emits carries
`transactionAmount` equal to the JS `Number(...)` coercion of the webhook's
decimal-string `invoice.total_amount`; and, e.g., `Number("5000")` is the
number `5000`. -/
theorem C9_paydunya_amount_is_number_coercion
    (st : PaydunyaProviderState) (body : PaydunyaWebhookBody) (run : WebhookRun)
    (hok : st.handleWebhook body = .ok run) :
    (∀ te ∈ run.emitted, ∃ invoice, body.invoice = some invoice ∧
      te.2.transactionAmount = jsNumberOfField invoice.total_amount) ∧
    jsNumber "5000" = some 5000 := by
  refine ⟨?_, jsNumber_5000⟩
  intro te hte
  simp only [PaydunyaProviderState.handleWebhook] at hok
  split at hok
  · injection hok with h
    subst h
    simp at hte
  split at hok
  · injection hok with h
    subst h
    simp at hte
  split at hok
  · exact absurd hok (by simp)
  split at hok
  · split at hok
    · exact absurd hok (by simp)
    rename_i invoice hinv
    split at hok
    · exact absurd hok (by simp)
    rename_i customData hcd
    injection hok with h
    subst h
    cases hem : st.eventEmitter with
    | false => simp [hem, emitIf] at hte
    | true =>
      simp [hem, emitIf] at hte
      subst hte
      exact ⟨invoice, hinv, rfl⟩
  split at hok
  · split at hok
    · exact absurd hok (by simp)
    rename_i invoice hinv
    split at hok
    · exact absurd hok (by simp)
    rename_i customData hcd
    injection hok with h
    subst h
    cases hem : st.eventEmitter with
    | false => simp [hem, emitIf] at hte
    | true =>
      simp [hem, emitIf] at hte
      subst hte
      exact ⟨invoice, hinv, rfl⟩
  split at hok
  · split at hok
    · exact absurd hok (by simp)
    rename_i invoice hinv
    split at hok
    · exact absurd hok (by simp)
    rename_i customData hcd
    injection hok with h
    subst h
    cases hem : st.eventEmitter with
    | false => simp [hem, emitIf] at hte
    | true =>
      simp [hem, emitIf] at hte
      subst hte
      exact ⟨invoice, hinv, rfl⟩
  · injection hok with h
    subst h
    simp at hte

/-- The concrete PAYMENT_SUCCESSFUL event of `examplePaydunyaSuccessBody`. -/
def examplePaydunyaSuccessEvent : PaymentEvent :=
  { type := .PAYMENT_SUCCESSFUL,
    transactionId := some "tx-42",
    transactionReference := some "invoice-token",
    transactionAmount := jsNumber "5000",
    transactionCurrency := some "XOF",
    paymentMethod := some .WAVE,
    metadata := [("transaction_id", JsValue.str "tx-42")],
    reason := none,
    paymentProvider := none }

/-- Witness for C9: on the concrete verified completed webhook, the emitted
event's amount is the `Number` coercion of the body's `"5000"` string. -/
theorem C9_paydunya_amount_is_number_coercion_witness :
    (∃ invoice, examplePaydunyaSuccessBody.invoice = some invoice ∧
      examplePaydunyaSuccessEvent.transactionAmount = jsNumberOfField invoice.total_amount) ∧
    jsNumber "5000" = some 5000 :=
  ⟨(C9_paydunya_amount_is_number_coercion examplePaydunyaState examplePaydunyaSuccessBody
      { returned := none,
        emitted := [(.PAYMENT_SUCCESSFUL, examplePaydunyaSuccessEvent)],
        logs := [] }
      rfl).1 (.PAYMENT_SUCCESSFUL, examplePaydunyaSuccessEvent) (by simp),
   (C9_paydunya_amount_is_number_coercion examplePaydunyaState examplePaydunyaSuccessBody
      { returned := none,
        emitted := [(.PAYMENT_SUCCESSFUL, examplePaydunyaSuccessEvent)],
        logs := [] }
      rfl).2⟩

/-- Both outputs of `emitSuccessfulPayment` hard-code the CREDIT_CARD method. -/
theorem emitSuccessfulPayment_method (st : StripeProviderState) (session : StripeCheckoutSession) :
    (∀ te ∈ (st.emitSuccessfulPayment session).emitted,
      te.2.paymentMethod = some .CREDIT_CARD) ∧
    (∀ e, (st.emitSuccessfulPayment session).returned = some e →
      e.paymentMethod = some .CREDIT_CARD) := by
  constructor
  · intro te hte
    unfold StripeProviderState.emitSuccessfulPayment at hte
    cases h : strFalsy session.metadataTransactionId with
    | true => simp [h] at hte
    | false =>
      cases hem : st.eventEmitter with
      | false => simp [h, hem, emitIf] at hte
      | true =>
        simp [h, hem, emitIf] at hte
        subst hte
        rfl
  · intro e he
    unfold StripeProviderState.emitSuccessfulPayment at he
    cases h : strFalsy session.metadataTransactionId with
    | true => simp [h] at he
    | false =>
      simp [h] at he
      rw [← he]

/-- C10: every canonical event the Stripe provider's `handleWebhook` emits or
returns — PAYMENT_INITIATED, PAYMENT_SUCCESSFUL and PAYMENT_FAILED alike —
carries `paymentMethod = CREDIT_CARD`, hard-coded: the checkout session's
actual payment method is never consulted, although `checkoutRedirect` accepts
any `PaymentMethod` and the event type allows a null method (the `paymentMethod`
field of `PaymentEvent` is an `Option`, and the Paydunya provider does emit
`none` there). -/
theorem C10_stripe_events_hardcode_credit_card
    (st : StripeProviderState) (rawBody : String) (options : HandleWebhookOptions) :
    (∀ te ∈ (st.handleWebhook rawBody options).emitted,
      te.2.paymentMethod = some .CREDIT_CARD) ∧
    (∀ e, (st.handleWebhook rawBody options).returned = some e →
      e.paymentMethod = some .CREDIT_CARD) := by
  constructor
  · intro te hte
    simp only [StripeProviderState.handleWebhook] at hte
    split at hte
    · simp at hte
    split at hte
    · simp at hte
    split at hte
    · simp at hte
    split at hte
    · split at hte
      · simp at hte
      split at hte
      · simp only [List.mem_append] at hte
        rcases hte with hte | hte
        · cases hem : st.eventEmitter with
          | false => simp [hem, emitIf] at hte
          | true =>
            simp [hem, emitIf] at hte
            subst hte
            rfl
        · exact (emitSuccessfulPayment_method st _).1 te hte
      · cases hem : st.eventEmitter with
        | false => simp [hem, emitIf] at hte
        | true =>
          simp [hem, emitIf] at hte
          subst hte
          rfl
    split at hte
    · exact (emitSuccessfulPayment_method st _).1 te hte
    split at hte
    · split at hte
      · simp at hte
      cases hem : st.eventEmitter with
      | false => simp [hem, emitIf] at hte
      | true =>
        simp [hem, emitIf] at hte
        subst hte
        rfl
    · simp at hte
  · intro e he
    simp only [StripeProviderState.handleWebhook] at he
    split at he
    · simp at he
    split at he
    · simp at he
    split at he
    · simp at he
    split at he
    · split at he
      · simp at he
      split at he
      · exact (emitSuccessfulPayment_method st _).2 e he
      · simp at he
        rw [← he]
    split at he
    · exact (emitSuccessfulPayment_method st _).2 e he
    split at he
    · split at he
      · simp at he
      simp at he
      rw [← he]
    · simp at he

/-- The concrete PAYMENT_SUCCESSFUL event of the paid example session. -/
def exampleStripeSuccessEvent : PaymentEvent :=
  { type := .PAYMENT_SUCCESSFUL,
    transactionId := some "tx-42",
    transactionReference := some "cs_123",
    transactionAmount := numberOfNullable (some 5000),
    transactionCurrency := some "XOF",
    paymentMethod := some .CREDIT_CARD,
    metadata := parseMetadata [("transactionId", "tx-42")],
    reason := none,
    paymentProvider := some "StripePaymentProvider" }

/-- Witness for C10: the event returned for the concrete paid session carries
the hard-coded CREDIT_CARD payment method. -/
theorem C10_stripe_events_hardcode_credit_card_witness :
    exampleStripeSuccessEvent.paymentMethod = some PaymentMethod.CREDIT_CARD :=
  (C10_stripe_events_hardcode_credit_card
    (exampleStripeStateFor { type := "checkout.session.completed", object := examplePaidSession })
    "raw" exampleStripeOptions).2 exampleStripeSuccessEvent rfl
